import Mathlib

/-!
Verification of the UDP hardware harness protocol codec, transport
correlation filter and opcode scanner.

Bytes are modelled as `Nat` (with `< 256` hypotheses where the Python
`bytes` type enforces them), byte strings as `List Nat`, and the Python
f-string messages as Lean `String`s built with explicit hex formatters.
-/

namespace DroneProtocol

/-- The protocol header constant (`DroneProtocol.HEADER = 0x55`). -/
def HEADER : Nat := 0x55

/-- `DroneProtocol.calculate_checksum`: XOR of all bytes, accumulator starts at 0. -/
def calculate_checksum (data : List Nat) : Nat :=
  data.foldl (fun chk b => chk ^^^ b) 0

/-- Uppercase hex digit for a value `0..15` (`'0'..'9'`, `'A'..'F'`). -/
def hexDigit (n : Nat) : Char :=
  if n < 10 then Char.ofNat (48 + n) else Char.ofNat (55 + n)

/-- Python `f"\x7bn:02X\x7d"` for a byte value: two uppercase hex digits. -/
def hex2 (n : Nat) : String :=
  String.mk [hexDigit (n / 16 % 16), hexDigit (n % 16)]

/-- Lowercase hex digit for a value `0..15` (`'0'..'9'`, `'a'..'f'`). -/
def hexDigitLower (n : Nat) : Char :=
  if n < 10 then Char.ofNat (48 + n) else Char.ofNat (87 + n)

/-- One byte as two lowercase hex digits (one cell of Python `bytes.hex()`). -/
def byteHexLower (b : Nat) : String :=
  String.mk [hexDigitLower (b / 16 % 16), hexDigitLower (b % 16)]

/-- Python `bytes.hex()`: lowercase, two digits per byte, no separator. -/
def bytesHex (data : List Nat) : String :=
  String.join (data.map byteHexLower)

/-- Python `bytes.hex().upper()`: uppercase, two digits per byte. -/
def byteHexUpper (b : Nat) : String :=
  String.mk [hexDigit (b / 16 % 16), hexDigit (b % 16)]

/-- `payload.hex().upper()` as emitted by the scanner. -/
def bytesHexUpper (data : List Nat) : String :=
  String.join (data.map byteHexUpper)

/-- Python `hex(n)` for a nonnegative integer: `0x` followed by lowercase
hex digits without padding (`hex(0) = "0x0"`). -/
def hexPy (n : Nat) : String :=
  "0x" ++ String.mk (Nat.toDigits 16 n)

/-- `DroneProtocol.build_packet`: header, length byte (`1 + len(payload)`),
opcode, payload, then the XOR checksum over everything before it.
(Python's `struct.pack("<BBB", ...)` additionally requires
`opcode ≤ 255` and `1 + len(payload) ≤ 255`; theorems carry those bounds
as hypotheses.) -/
def build_packet (opcode : Nat) (payload : List Nat) : List Nat :=
  let length := 1 + payload.length
  let body := [HEADER, length, opcode] ++ payload
  body ++ [calculate_checksum body]

/-- The `Frame` dataclass of `drone_tool.py`. -/
structure Frame where
  header : Nat
  length : Nat
  opcode : Nat
  payload : List Nat
  checksum : Nat
  raw : List Nat
  is_valid : Bool
  error_msg : String
  trailing_data : List Nat := []
deriving DecidableEq, Repr

/-- `DroneProtocol.parse_frame`: the classification ladder of the source —
empty, shorter than 4 bytes, truncated against the declared
`expected_total = 1 + 1 + length + 1`, then full extraction with
bad-header / bad-checksum / OK verdicts.  `payload_len = max(0, length - 1)`
is computed over the integers exactly as in Python. -/
def parse_frame (data : List Nat) : Frame :=
  if data.length = 0 then
    { header := 0, length := 0, opcode := 0, payload := [], checksum := 0,
      raw := [], is_valid := false, error_msg := "Empty Data" }
  else if data.length < 4 then
    { header := 0, length := 0, opcode := 0, payload := [], checksum := 0,
      raw := data, is_valid := false,
      error_msg := "Frame too short (" ++ toString data.length ++ ")" }
  else
    let header := data.getD 0 0
    let len_byte := data.getD 1 0
    let expected_total := 1 + 1 + len_byte + 1
    if data.length < expected_total then
      { header := header, length := len_byte, opcode := 0, payload := [],
        checksum := 0, raw := data, is_valid := false,
        error_msg := "Truncated: Exp " ++ toString expected_total ++
                     " Got " ++ toString data.length }
    else
      let frame_data := data.take expected_total
      let trailing := data.drop expected_total
      let opcode := frame_data.getD 2 0
      let received_chk := frame_data.getLastD 0
      let payload_len := (max 0 ((len_byte : Int) - 1)).toNat
      let payload := (frame_data.drop 3).take payload_len
      let body := frame_data.dropLast
      let calc_chk := calculate_checksum body
      if header ≠ HEADER then
        { header := header, length := len_byte, opcode := opcode,
          payload := payload, checksum := received_chk, raw := frame_data,
          is_valid := false,
          error_msg := "Bad Header 0x" ++ hex2 header,
          trailing_data := trailing }
      else if calc_chk ≠ received_chk then
        { header := header, length := len_byte, opcode := opcode,
          payload := payload, checksum := received_chk, raw := frame_data,
          is_valid := false,
          error_msg := "Bad Checksum: Rx " ++ hex2 received_chk ++
                       " != Calc " ++ hex2 calc_chk,
          trailing_data := trailing }
      else
        { header := header, length := len_byte, opcode := opcode,
          payload := payload, checksum := received_chk, raw := frame_data,
          is_valid := true, error_msg := "OK", trailing_data := trailing }

/-- Result of `DroneProtocol.decode_telemetry` (the Python dict): either the
four unpacked fields or a structured size-mismatch error carrying the raw
hex.  The `f` (IEEE-754 binary32) altitude field is represented by the exact
32-bit little-endian pattern unpacked from bytes 3..6; its floating-point
numeric value and Python's `round(alt, 2)` live outside this integer
embedding. -/
inductive TelemetryResult where
  | ok (battery : Nat) (voltage : Nat) (altitudeBits : Nat) (errors : String)
  | sizeMismatch (raw : String)
deriving DecidableEq, Repr

/-- `DroneProtocol.decode_telemetry`: the layout `"<BHfB"` has
`struct.calcsize = 1 + 2 + 4 + 1 = 8`; any other payload length yields the
structured size-mismatch error with the payload's hex; on an exact 8-byte
payload the little-endian fields are unpacked. -/
def decode_telemetry (payload : List Nat) : TelemetryResult :=
  let expected := 1 + 2 + 4 + 1
  if payload.length ≠ expected then
    .sizeMismatch (bytesHex payload)
  else
    .ok (payload.getD 0 0)
        (payload.getD 1 0 + 256 * payload.getD 2 0)
        (payload.getD 3 0 + 256 * payload.getD 4 0 +
         65536 * payload.getD 5 0 + 16777216 * payload.getD 6 0)
        (hexPy (payload.getD 7 0))

end DroneProtocol

namespace MockDrone

/-- `MockDrone.build_packet` from `mock_device.py`: header, length byte,
opcode, payload, then the XOR checksum accumulated in its own loop. -/
def build_packet (opcode : Nat) (payload : List Nat) : List Nat :=
  let length := 1 + payload.length
  let body := [DroneProtocol.HEADER, length, opcode] ++ payload
  let checksum := body.foldl (fun chk b => chk ^^^ b) 0
  body ++ [checksum]

end MockDrone

namespace HardwareClient

/-- One receive attempt of `HardwareClient.send_command`, over the queue of
datagrams that arrive within the attempt's deadline (real time is abstracted:
the list holds exactly the datagrams the queue yields before the deadline).
Mirrors the wait loop: pop in receipt order; if no opcode correlation is
requested or the datagram is shorter than 3 bytes, return it; if its byte at
offset 2 equals the expected opcode, return it; otherwise discard it and keep
waiting.  Returns the delivered datagram and the remaining queue, or `none`
when the queue is exhausted (timeout for this attempt). -/
def recv_loop (expected : Option Nat) :
    List (List Nat) → Option (List Nat × List (List Nat))
  | [] => none
  | d :: rest =>
    match expected with
    | none => some (d, rest)
    | some op =>
      if d.length < 3 then some (d, rest)
      else if d.getD 2 0 = op then some (d, rest)
      else recv_loop (some op) rest

/-- `HardwareClient._flush_queue`: drains the receive queue completely; it
runs at the start of every `send_command` attempt, so no datagram queued
before a later call can ever be delivered by it. -/
def flush_queue (_q : List (List Nat)) : List (List Nat) := []

end HardwareClient

namespace DroneScanner

open DroneProtocol

/-- One CSV record of `DroneScanner.scan_opcodes` (the `RTT_ms` wall-clock
column is real time and is outside the embedding).  `rx_opcode` and
`trailing` are `none` exactly when the Python code writes the empty cell of
the TIMEOUT row. -/
structure ScanRow where
  op : Nat
  status : String
  rx_len : Nat
  rx_opcode : Option Nat
  rx_payload_hex : String
  trailing : Option Nat
  error_msg : String
deriving DecidableEq, Repr

/-- The body of the scan loop for one opcode, with the transport outcome of
`send_command` passed in: `if not rx_bytes` (covering both `None` and the
empty byte string) writes the TIMEOUT row; otherwise the response is parsed
and classified `VALID` or `INVALID_FMT`. -/
def scan_row (op : Nat) (rx : Option (List Nat)) : ScanRow :=
  match rx with
  | none =>
    { op := op, status := "TIMEOUT", rx_len := 0, rx_opcode := none,
      rx_payload_hex := "", trailing := none, error_msg := "" }
  | some data =>
    if data.length = 0 then
      { op := op, status := "TIMEOUT", rx_len := 0, rx_opcode := none,
        rx_payload_hex := "", trailing := none, error_msg := "" }
    else
      let frame := parse_frame data
      let log_status := if frame.is_valid then "VALID" else "INVALID_FMT"
      { op := op, status := log_status, rx_len := frame.raw.length,
        rx_opcode := some frame.opcode,
        rx_payload_hex := bytesHexUpper frame.payload,
        trailing := some frame.trailing_data.length,
        error_msg := frame.error_msg }

/-- `DroneScanner.scan_opcodes`: sweeps every opcode `0..255` in ascending
order, one row per opcode, never aborting on a malformed or missing
response.  `device` abstracts the per-opcode transport outcome returned by
`send_command` (`none` = no response). -/
def scan_opcodes (device : Nat → Option (List Nat)) : List ScanRow :=
  (List.range 256).map (fun op => scan_row op (device op))

end DroneScanner

/-- Flip bit `j` of the byte at offset `i` (out-of-range `i` leaves the
frame unchanged, matching `List.set`). -/
def flip_bit (data : List Nat) (i j : Nat) : List Nat :=
  data.set i (data.getD i 0 ^^^ 2 ^ j)

namespace DroneProtocol

/-! Helper lemmas about the XOR checksum and list surgery. -/

lemma foldl_xor_shift (l : List Nat) (a : Nat) :
    l.foldl (fun chk b => chk ^^^ b) a =
      a ^^^ l.foldl (fun chk b => chk ^^^ b) 0 := by
  induction l generalizing a with
  | nil => simp
  | cons x xs ih =>
    simp only [List.foldl_cons]
    rw [ih (a ^^^ x), ih (0 ^^^ x), Nat.zero_xor, Nat.xor_assoc]

lemma calculate_checksum_cons (x : Nat) (l : List Nat) :
    calculate_checksum (x :: l) = x ^^^ calculate_checksum l := by
  unfold calculate_checksum
  simp only [List.foldl_cons]
  rw [foldl_xor_shift, Nat.zero_xor]

/-- XORing one list element with `m` XORs the whole checksum with `m`. -/
lemma calculate_checksum_set (l : List Nat) (i m : Nat) (h : i < l.length) :
    calculate_checksum (l.set i (l.getD i 0 ^^^ m)) =
      calculate_checksum l ^^^ m := by
  induction l generalizing i with
  | nil => simp at h
  | cons x xs ih =>
    cases i with
    | zero =>
      simp only [List.getD_cons_zero, List.set_cons_zero, calculate_checksum_cons]
      rw [Nat.xor_assoc, Nat.xor_comm m, ← Nat.xor_assoc]
    | succ i =>
      simp only [List.getD_cons_succ, List.set_cons_succ, calculate_checksum_cons]
      rw [ih i (by simp at h; exact h), ← Nat.xor_assoc]

lemma xor_two_pow_ne (a j : Nat) : a ^^^ 2 ^ j ≠ a := by
  intro h
  have h2 : a ^^^ (a ^^^ 2 ^ j) = a ^^^ a := congrArg (a ^^^ ·) h
  rw [← Nat.xor_assoc, Nat.xor_self, Nat.zero_xor] at h2
  exact absurd h2 (Nat.pos_iff_ne_zero.mp (Nat.pos_pow_of_pos j (by omega)))

lemma getLastD_concat_nat (l : List Nat) (a d : Nat) :
    (l ++ [a]).getLastD d = a := by
  induction l generalizing d with
  | nil => rfl
  | cons x xs ih => rw [List.cons_append, List.getLastD_cons]; exact ih x

lemma getD_append_left (l l₂ : List Nat) (i d : Nat) (h : i < l.length) :
    (l ++ l₂).getD i d = l.getD i d := by
  rw [List.getD_eq_getElem _ _ (by simp; omega), List.getD_eq_getElem _ _ h]
  exact List.getElem_append_left h

lemma getD_set_ne (l : List Nat) (i j x d : Nat) (h : i ≠ j) :
    (l.set i x).getD j d = l.getD j d := by
  rcases Nat.lt_or_ge j l.length with hj | hj
  · rw [List.getD_eq_getElem _ _ (by simpa using hj), List.getD_eq_getElem _ _ hj]
    exact List.getElem_set_ne h _
  · rw [List.getD_eq_default _ _ (by simpa using hj), List.getD_eq_default _ _ hj]

lemma set_last_eq (l : List Nat) (x : Nat) (h : l ≠ []) :
    l.set (l.length - 1) x = l.dropLast ++ [x] := by
  induction l with
  | nil => exact absurd rfl h
  | cons a t ih =>
    cases t with
    | nil => rfl
    | cons b t' =>
      have : (a :: b :: t').length - 1 = (b :: t').length - 1 + 1 := by
        simp
      rw [this, List.set_cons_succ, ih (by simp)]
      rfl

lemma getLastD_set_of_lt (l : List Nat) (i x d : Nat) (h : i + 1 < l.length) :
    (l.set i x).getLastD d = l.getLastD d := by
  induction l generalizing i d with
  | nil => simp at h
  | cons a t ih =>
    cases i with
    | zero =>
      cases t with
      | nil => simp at h
      | cons b t' => simp [List.getLastD]
    | succ i =>
      cases t with
      | nil => simp at h
      | cons b t' =>
        rw [List.set_cons_succ, List.getLastD_cons, List.getLastD_cons]
        exact ih i a (by simpa using h)

lemma dropLast_set (l : List Nat) (i x : Nat) :
    (l.set i x).dropLast = l.dropLast.set i x := by
  rw [List.dropLast_eq_take, List.dropLast_eq_take, List.length_set, List.set_take]

/-- Evaluation of `parse_frame` on input whose length is exactly the declared
`expected_total` (no truncation, no trailing bytes): only the header and
checksum verdicts remain. -/
lemma parse_frame_full (data : List Nat) (h4 : 4 ≤ data.length)
    (hlen : data.length = data.getD 1 0 + 3) :
    parse_frame data =
      (if data.getD 0 0 ≠ HEADER then
        { header := data.getD 0 0, length := data.getD 1 0,
          opcode := data.getD 2 0,
          payload := (data.drop 3).take ((max 0 ((data.getD 1 0 : Int) - 1)).toNat),
          checksum := data.getLastD 0, raw := data, is_valid := false,
          error_msg := "Bad Header 0x" ++ hex2 (data.getD 0 0),
          trailing_data := [] }
      else if calculate_checksum data.dropLast ≠ data.getLastD 0 then
        { header := data.getD 0 0, length := data.getD 1 0,
          opcode := data.getD 2 0,
          payload := (data.drop 3).take ((max 0 ((data.getD 1 0 : Int) - 1)).toNat),
          checksum := data.getLastD 0, raw := data, is_valid := false,
          error_msg := "Bad Checksum: Rx " ++ hex2 (data.getLastD 0) ++
                       " != Calc " ++ hex2 (calculate_checksum data.dropLast),
          trailing_data := [] }
      else
        { header := data.getD 0 0, length := data.getD 1 0,
          opcode := data.getD 2 0,
          payload := (data.drop 3).take ((max 0 ((data.getD 1 0 : Int) - 1)).toNat),
          checksum := data.getLastD 0, raw := data, is_valid := true,
          error_msg := "OK", trailing_data := [] }) := by
  have h0 : ¬ data.length = 0 := by omega
  have h1 : ¬ data.length < 4 := by omega
  have het : 1 + 1 + data.getD 1 0 + 1 = data.length := by omega
  have h2 : ¬ data.length < 1 + 1 + data.getD 1 0 + 1 := by omega
  simp only [parse_frame, h0, h1, h2, if_false, het, List.take_length,
    List.drop_length, lt_self_iff_false]

lemma getD_take (l : List Nat) (k i d : Nat) (hik : i < k) (hil : i < l.length) :
    (l.take k).getD i d = l.getD i d := by
  rw [List.getD_eq_getElem _ _ (by simp; omega), List.getD_eq_getElem _ _ hil]
  exact List.getElem_take l

lemma getD_set_eq (l : List Nat) (i x d : Nat) (h : i < l.length) :
    (l.set i x).getD i d = x := by
  rw [List.getD_eq_getElem _ _ (by simpa using h)]
  exact List.getElem_set_self _

/-- `parse_frame` on the empty input. -/
lemma parse_frame_zero (data : List Nat) (h : data.length = 0) :
    parse_frame data =
      { header := 0, length := 0, opcode := 0, payload := [], checksum := 0,
        raw := [], is_valid := false, error_msg := "Empty Data" } := by
  simp only [parse_frame]
  rw [if_pos h]

/-- `parse_frame` on a nonempty input shorter than 4 bytes. -/
lemma parse_frame_short (data : List Nat) (h0 : ¬ data.length = 0)
    (h4 : data.length < 4) :
    parse_frame data =
      { header := 0, length := 0, opcode := 0, payload := [], checksum := 0,
        raw := data, is_valid := false,
        error_msg := "Frame too short (" ++ toString data.length ++ ")" } := by
  simp only [parse_frame]
  rw [if_neg h0, if_pos h4]

/-- `parse_frame` on an input shorter than its declared `expected_total`. -/
lemma parse_frame_truncated (data : List Nat) (h4 : 4 ≤ data.length)
    (ht : data.length < 1 + 1 + data.getD 1 0 + 1) :
    parse_frame data =
      { header := data.getD 0 0, length := data.getD 1 0, opcode := 0,
        payload := [], checksum := 0, raw := data, is_valid := false,
        error_msg := "Truncated: Exp " ++ toString (1 + 1 + data.getD 1 0 + 1) ++
                     " Got " ++ toString data.length } := by
  simp only [parse_frame]
  rw [if_neg (by omega), if_neg (by omega), if_pos ht]

/-- On any input at least as long as its declared `expected_total`, the
opcode, payload and trailing data are extracted from the input regardless of
the header/checksum verdict. -/
lemma parse_frame_long_fields (data : List Nat) (h4 : 4 ≤ data.length)
    (hge : 1 + 1 + data.getD 1 0 + 1 ≤ data.length) :
    (parse_frame data).opcode = (data.take (1 + 1 + data.getD 1 0 + 1)).getD 2 0 ∧
    (parse_frame data).payload =
      ((data.take (1 + 1 + data.getD 1 0 + 1)).drop 3).take
        ((max 0 ((data.getD 1 0 : Int) - 1)).toNat) ∧
    (parse_frame data).trailing_data = data.drop (1 + 1 + data.getD 1 0 + 1) := by
  simp only [parse_frame]
  rw [if_neg (by omega), if_neg (by omega), if_neg (by omega)]
  split_ifs <;> exact ⟨rfl, rfl, rfl⟩

/-- The only `parse_frame` branch with `is_valid = true` reports `"OK"`. -/
lemma parse_frame_valid_msg (data : List Nat)
    (h : (parse_frame data).is_valid = true) :
    (parse_frame data).error_msg = "OK" := by
  simp only [parse_frame] at h ⊢
  split_ifs at h ⊢
  simp_all

/-- Shape of a built packet as an explicit cons chain. -/
lemma build_packet_eq_cons (op : Nat) (p : List Nat) :
    build_packet op p =
      HEADER :: (1 + p.length) :: op ::
        (p ++ [calculate_checksum ([HEADER, 1 + p.length, op] ++ p)]) := by
  simp [build_packet]

lemma length_build_packet (op : Nat) (p : List Nat) :
    (build_packet op p).length = p.length + 4 := by
  simp [build_packet]

/-- Full evaluation of `parse_frame` on a built packet: the round trip. -/
lemma parse_build_packet (op : Nat) (p : List Nat) :
    parse_frame (build_packet op p) =
      { header := HEADER, length := 1 + p.length, opcode := op, payload := p,
        checksum := calculate_checksum ([HEADER, 1 + p.length, op] ++ p),
        raw := build_packet op p, is_valid := true, error_msg := "OK",
        trailing_data := [] } := by
  set c := calculate_checksum ([HEADER, 1 + p.length, op] ++ p) with hc
  have hb : build_packet op p =
      HEADER :: (1 + p.length) :: op :: (p ++ [c]) := build_packet_eq_cons op p
  have hlen : (build_packet op p).length = p.length + 4 := length_build_packet op p
  have hg0 : (build_packet op p).getD 0 0 = HEADER := by rw [hb]; rfl
  have hg1 : (build_packet op p).getD 1 0 = 1 + p.length := by rw [hb]; rfl
  have hg2 : (build_packet op p).getD 2 0 = op := by rw [hb]; rfl
  have hlast : (build_packet op p).getLastD 0 = c := by
    rw [hb]
    show (([HEADER, 1 + p.length, op] ++ p) ++ [c]).getLastD 0 = c
    exact getLastD_concat_nat _ _ _
  have hdl : (build_packet op p).dropLast = [HEADER, 1 + p.length, op] ++ p := by
    rw [hb]
    show (([HEADER, 1 + p.length, op] ++ p) ++ [c]).dropLast = _
    exact List.dropLast_concat
  have hdrop : (build_packet op p).drop 3 = p ++ [c] := by rw [hb]; rfl
  have hpl : (max 0 (((1 + p.length : Nat) : Int) - 1)).toNat = p.length := by
    push_cast
    omega
  rw [parse_frame_full (build_packet op p) (by omega) (by rw [hg1]; omega)]
  rw [hg0, hg1, hg2, hlast, hdl, hdrop, hpl, ← hc]
  rw [if_neg (by simp), if_neg (by simp)]
  rw [List.take_left]

end DroneProtocol


section Claims

open DroneProtocol DroneScanner

/-- Claim C1: for every opcode byte and every payload of at most 252 bytes,
`parse_frame (build_packet opcode payload)` returns a frame with
`is_valid = true`, opcode equal to the input opcode, payload equal to the
input payload, and empty trailing data. -/
theorem claim_c1_round_trip (op : Nat) (p : List Nat)
    (_hop : op < 256) (_hbytes : ∀ b ∈ p, b < 256) (_hlen : p.length ≤ 252) :
    (parse_frame (build_packet op p)).is_valid = true ∧
    (parse_frame (build_packet op p)).opcode = op ∧
    (parse_frame (build_packet op p)).payload = p ∧
    (parse_frame (build_packet op p)).trailing_data = [] := by
  rw [parse_build_packet]
  exact ⟨rfl, rfl, rfl, rfl⟩

theorem claim_c1_round_trip_witness :
    (parse_frame (build_packet 17 [1, 2])).is_valid = true ∧
    (parse_frame (build_packet 17 [1, 2])).opcode = 17 ∧
    (parse_frame (build_packet 17 [1, 2])).payload = [1, 2] ∧
    (parse_frame (build_packet 17 [1, 2])).trailing_data = [] :=
  claim_c1_round_trip 17 [1, 2] (by decide) (by decide) (by decide)

/-- Claim C2 counterexample: the 4-byte input `[0x55, 0x10, 0x42, 0x99]` is
neither empty nor shorter than the minimum 4-byte frame, yet `parse_frame`
(taking the truncated branch, since the declared total is 19) returns
opcode 0 and an empty payload instead of populating them from the input —
refuting the claim that only empty/short inputs get zero/empty fields. -/
theorem claim_c2_counterexample :
    4 ≤ ([0x55, 0x10, 0x42, 0x99] : List Nat).length ∧
    (parse_frame [0x55, 0x10, 0x42, 0x99]).is_valid = false ∧
    (parse_frame [0x55, 0x10, 0x42, 0x99]).opcode = 0 ∧
    (parse_frame [0x55, 0x10, 0x42, 0x99]).payload = [] := by decide

/-- Claim C2 amended: `parse_frame` populates opcode and payload from the
input bytes exactly when the input reaches the declared
`expected_total = 1 + 1 + length + 1`; they are zero/empty for the empty
input, for inputs shorter than the minimum 4-byte frame, and also for
truncated inputs (at least 4 bytes but shorter than `expected_total`). -/
theorem claim_c2_best_effort_fields (data : List Nat) :
    ((data.length = 0 ∨ data.length < 4 ∨
        data.length < 1 + 1 + data.getD 1 0 + 1) →
      (parse_frame data).opcode = 0 ∧ (parse_frame data).payload = []) ∧
    (4 ≤ data.length → 1 + 1 + data.getD 1 0 + 1 ≤ data.length →
      (parse_frame data).opcode = (data.take (1 + 1 + data.getD 1 0 + 1)).getD 2 0 ∧
      (parse_frame data).payload =
        ((data.take (1 + 1 + data.getD 1 0 + 1)).drop 3).take
          ((max 0 ((data.getD 1 0 : Int) - 1)).toNat)) := by
  constructor
  · intro h
    by_cases h0 : data.length = 0
    · rw [parse_frame_zero data h0]
      exact ⟨rfl, rfl⟩
    · by_cases h4 : data.length < 4
      · rw [parse_frame_short data h0 h4]
        exact ⟨rfl, rfl⟩
      · have ht : data.length < 1 + 1 + data.getD 1 0 + 1 := by
          rcases h with h | h | h
          · omega
          · omega
          · exact h
        rw [parse_frame_truncated data (by omega) ht]
        exact ⟨rfl, rfl⟩
  · intro h4 hge
    exact ⟨(parse_frame_long_fields data h4 hge).1,
           (parse_frame_long_fields data h4 hge).2.1⟩

theorem claim_c2_best_effort_fields_witness :
    (parse_frame [85, 1, 7, 35]).opcode = 7 ∧
    (parse_frame [85, 1, 7, 35]).payload = [] := by
  have h := (claim_c2_best_effort_fields [85, 1, 7, 35]).2 (by decide) (by decide)
  exact ⟨h.1.trans (by decide), h.2.trans (by decide)⟩

/-- Claim C3: if the transport queue yields a datagram whose byte at offset
2 differs from the expected opcode followed by one whose byte at offset 2
matches, the receive loop of `send_command` returns the matching datagram
and leaves exactly the rest of the queue: the mismatched datagram is
discarded, and since `_flush_queue` (which empties the queue) runs before
every later attempt and call, it can never be returned later. -/
theorem claim_c3_correlation_filter (op : Nat) (a b : List Nat)
    (rest : List (List Nat)) (ha3 : 3 ≤ a.length) (hamis : a.getD 2 0 ≠ op)
    (hb3 : 3 ≤ b.length) (hbmatch : b.getD 2 0 = op) :
    HardwareClient.recv_loop (some op) (a :: b :: rest) = some (b, rest) ∧
    HardwareClient.flush_queue rest = [] := by
  have hna : ¬ a.length < 3 := by omega
  have hnb : ¬ b.length < 3 := by omega
  have hamis2 : a[2]?.getD 0 ≠ op := by
    simpa [List.getD_eq_getElem?_getD] using hamis
  have hbmatch2 : b[2]?.getD 0 = op := by
    simpa [List.getD_eq_getElem?_getD] using hbmatch
  refine ⟨?_, rfl⟩
  simp [HardwareClient.recv_loop, hna, hnb, hamis2, hbmatch2]

theorem claim_c3_correlation_filter_witness :
    HardwareClient.recv_loop (some 7) ([85, 2, 9] :: [85, 2, 7, 1] :: []) =
      some ([85, 2, 7, 1], []) ∧
    HardwareClient.flush_queue [] = [] :=
  claim_c3_correlation_filter 7 [85, 2, 9] [85, 2, 7, 1] []
    (by decide) (by decide) (by decide) (by decide)

/-- `ScanRow.op` is always the probed opcode. -/
lemma scan_row_op (op : Nat) (rx : Option (List Nat)) :
    (DroneScanner.scan_row op rx).op = op := by
  cases rx with
  | none => rfl
  | some d =>
    by_cases h : d.length = 0 <;> simp [DroneScanner.scan_row, h]

/-- Claim C4: for every assignment of per-opcode transport outcomes, the
scan emits exactly 256 rows, one per opcode 0..255 in strictly ascending
order (never aborting — `scan_opcodes` is total); the row of an opcode with
no response is classified TIMEOUT and the row of an opcode whose response
parses valid is classified VALID. -/
theorem claim_c4_scan_completeness (device : Nat → Option (List Nat)) :
    (scan_opcodes device).length = 256 ∧
    (scan_opcodes device).map ScanRow.op = List.range 256 ∧
    List.Pairwise (fun r s => r.op < s.op) (scan_opcodes device) ∧
    (∀ i (h : i < (scan_opcodes device).length),
      (scan_opcodes device).get ⟨i, h⟩ = scan_row i (device i)) ∧
    (∀ op, op < 256 → device op = none →
      (scan_row op (device op)).status = "TIMEOUT") ∧
    (∀ op resp, op < 256 → device op = some resp →
      (parse_frame resp).is_valid = true →
      (scan_row op (device op)).status = "VALID") := by
  refine ⟨by simp [scan_opcodes], ?_, ?_, ?_, ?_, ?_⟩
  · rw [scan_opcodes, List.map_map]
    have h : (List.range 256).map
        (ScanRow.op ∘ fun op => scan_row op (device op)) =
        (List.range 256).map id :=
      List.map_congr_left (fun a _ => scan_row_op a (device a))
    rw [h, List.map_id]
  · refine List.pairwise_map.mpr ((List.pairwise_lt_range 256).imp ?_)
    intro a b hab
    rw [scan_row_op, scan_row_op]
    exact hab
  · intro i h
    simp [scan_opcodes]
  · intro op _ h
    rw [h]
    rfl
  · intro op resp _ h hv
    rw [h]
    have hne : ¬ resp.length = 0 := by
      intro h0
      rw [List.eq_nil_of_length_eq_zero h0] at hv
      exact absurd hv (by decide)
    simp [scan_row, hne, hv]

/-- A concrete per-opcode transport outcome: opcode 17 answers with a valid
built frame, every other opcode stays silent. -/
def c4_device : Nat → Option (List Nat) :=
  fun op => if op = 17 then some (DroneProtocol.build_packet 17 [1]) else none

theorem claim_c4_scan_completeness_witness :
    (scan_opcodes c4_device).length = 256 ∧
    (scan_row 171 (c4_device 171)).status = "TIMEOUT" ∧
    (scan_row 17 (c4_device 17)).status = "VALID" :=
  ⟨(claim_c4_scan_completeness c4_device).1,
   (claim_c4_scan_completeness c4_device).2.2.2.2.1 171 (by decide) (by decide),
   (claim_c4_scan_completeness c4_device).2.2.2.2.2 17
     (DroneProtocol.build_packet 17 [1]) (by decide) (by decide) (by decide)⟩

end Claims
section ClaimsB

open DroneProtocol

/-- Flipping a single bit of a built frame at byte offset 2 or beyond
(opcode, payload, or checksum byte) leaves the header and length bytes
intact, so the frame reparses at full length and fails exactly the checksum
comparison. -/
lemma flip_bit_bad_checksum (op : Nat) (p : List Nat) (i j : Nat)
    (hi2 : 2 ≤ i) (hin : i < (build_packet op p).length) :
    (parse_frame (flip_bit (build_packet op p) i j)).is_valid = false ∧
    ∃ r c, r ≠ c ∧
      (parse_frame (flip_bit (build_packet op p) i j)).error_msg =
        "Bad Checksum: Rx " ++ hex2 r ++ " != Calc " ++ hex2 c := by
  set f := build_packet op p with hf
  set g := flip_bit f i j with hgdef
  have hbody : f = ([HEADER, 1 + p.length, op] ++ p) ++
      [calculate_checksum ([HEADER, 1 + p.length, op] ++ p)] := by
    rw [hf]
    simp [build_packet]
  set body := [HEADER, 1 + p.length, op] ++ p with hbd
  set c0 := calculate_checksum body with hc0
  have hlenf : f.length = p.length + 4 := length_build_packet op p
  have hbl : body.length = p.length + 3 := by simp [hbd]
  have hgeq : g = f.set i (f.getD i 0 ^^^ 2 ^ j) := rfl
  have hglen : g.length = f.length := by
    rw [hgeq]
    exact List.length_set f i _
  have hg0 : g.getD 0 0 = HEADER := by
    rw [hgeq, getD_set_ne f i 0 _ 0 (by omega), hbody, hbd]
    rfl
  have hg1 : g.getD 1 0 = 1 + p.length := by
    rw [hgeq, getD_set_ne f i 1 _ 0 (by omega), hbody, hbd]
    rfl
  have h4g : 4 ≤ g.length := by omega
  have hleng : g.length = g.getD 1 0 + 3 := by
    rw [hglen, hlenf, hg1]
    omega
  have hne : calculate_checksum g.dropLast ≠ g.getLastD 0 := by
    rcases (by omega : i + 1 = f.length ∨ i + 1 < f.length) with hlast | hmid
    · have hfe : f ≠ [] := by
        intro h
        rw [h] at hlenf
        simp at hlenf
      have hi_eq : i = body.length := by omega
      have hfi : f.getD i 0 = c0 := by
        rw [hi_eq, hbody]
        rw [List.getD_eq_getElem _ _ (by simp)]
        exact List.getElem_concat_length body c0 _ rfl _
      have hgeq2 : g = body ++ [c0 ^^^ 2 ^ j] := by
        rw [hgeq, hfi, (by omega : i = f.length - 1), set_last_eq f _ hfe,
            hbody, List.dropLast_concat]
      rw [hgeq2, List.dropLast_concat, getLastD_concat_nat, ← hc0]
      exact fun h => xor_two_pow_ne c0 j h.symm
    · have hib : i < body.length := by omega
      have hfi : f.getD i 0 = body.getD i 0 := by
        rw [hbody]
        exact getD_append_left body _ i 0 hib
      have hdl : g.dropLast = body.set i (body.getD i 0 ^^^ 2 ^ j) := by
        rw [hgeq, dropLast_set, hfi, hbody, List.dropLast_concat]
      have hgl : g.getLastD 0 = c0 := by
        rw [hgeq, getLastD_set_of_lt f i _ 0 (by omega), hbody, getLastD_concat_nat]
      rw [hdl, hgl, calculate_checksum_set body i _ hib, ← hc0]
      exact xor_two_pow_ne c0 j
  rw [parse_frame_full g h4g hleng, if_neg (by rw [hg0]; simp), if_pos hne]
  exact ⟨rfl, g.getLastD 0, calculate_checksum g.dropLast, Ne.symm hne, rfl⟩

/-- Flipping a single bit of the header byte of a built frame yields the
bad-header verdict, not a checksum mismatch. -/
lemma flip_bit_bad_header (op : Nat) (p : List Nat) (j : Nat) :
    (parse_frame (flip_bit (build_packet op p) 0 j)).is_valid = false ∧
    (parse_frame (flip_bit (build_packet op p) 0 j)).error_msg =
      "Bad Header 0x" ++ hex2 (HEADER ^^^ 2 ^ j) := by
  set f := build_packet op p with hf
  set g := flip_bit f 0 j with hgdef
  have hlenf : f.length = p.length + 4 := length_build_packet op p
  have hgeq : g = f.set 0 (f.getD 0 0 ^^^ 2 ^ j) := rfl
  have hglen : g.length = f.length := by
    rw [hgeq]
    exact List.length_set f 0 _
  have hf0 : f.getD 0 0 = HEADER := by
    rw [hf, build_packet_eq_cons]
    rfl
  have hg0 : g.getD 0 0 = HEADER ^^^ 2 ^ j := by
    rw [hgeq, hf0, getD_set_eq f 0 _ 0 (by omega)]
  have hg1 : g.getD 1 0 = 1 + p.length := by
    rw [hgeq, getD_set_ne f 0 1 _ 0 (by omega), hf, build_packet_eq_cons]
    rfl
  have h4g : 4 ≤ g.length := by omega
  have hleng : g.length = g.getD 1 0 + 3 := by
    rw [hglen, hlenf, hg1]
    omega
  rw [parse_frame_full g h4g hleng,
      if_pos (show g.getD 0 0 ≠ HEADER by rw [hg0]; exact xor_two_pow_ne HEADER j)]
  exact ⟨rfl, by rw [hg0]⟩

end ClaimsB

section ClaimsC

open DroneProtocol DroneScanner

/-- Claim C5 counterexample: flipping the single bit 1 of the length byte
(offset 1) of the valid built frame `build_packet 0 [0x54, 0] =
[0x55, 0x03, 0x00, 0x54, 0x00, 0x02]` gives `[0x55, 0x01, 0x00, 0x54, 0x00,
0x02]`, which reparses as a shorter frame that is fully VALID (`is_valid =
true`, message "OK", two trailing bytes) — neither a checksum mismatch nor a
truncation/short-frame classification. -/
theorem claim_c5_counterexample :
    (parse_frame (flip_bit (build_packet 0 [0x54, 0]) 1 1)).is_valid = true ∧
    (parse_frame (flip_bit (build_packet 0 [0x54, 0]) 1 1)).error_msg = "OK" ∧
    (parse_frame (flip_bit (build_packet 0 [0x54, 0]) 1 1)).trailing_data = [0, 2] := by
  decide

/-- Claim C5 amended: flipping any single bit of a built frame at byte
offset 2 or beyond (opcode, payload, or checksum byte) yields
`is_valid = false` with a checksum-mismatch message; flipping a bit of the
header byte (offset 0) yields `is_valid = false` with a bad-header message;
a flip inside the length byte (offset 1) may instead reclassify the frame —
as truncated, or as a shorter frame with trailing data that can even be
fully valid, per the counterexample. -/
theorem claim_c5_checksum_sensitivity (op : Nat) (p : List Nat)
    (_hop : op < 256) (_hbytes : ∀ b ∈ p, b < 256) (_hplen : p.length ≤ 252)
    (i j : Nat) (hin : i < (build_packet op p).length) (_hj : j < 8) :
    (2 ≤ i →
      (parse_frame (flip_bit (build_packet op p) i j)).is_valid = false ∧
      ∃ r c, r ≠ c ∧
        (parse_frame (flip_bit (build_packet op p) i j)).error_msg =
          "Bad Checksum: Rx " ++ hex2 r ++ " != Calc " ++ hex2 c) ∧
    (i = 0 →
      (parse_frame (flip_bit (build_packet op p) i j)).is_valid = false ∧
      (parse_frame (flip_bit (build_packet op p) i j)).error_msg =
        "Bad Header 0x" ++ hex2 (HEADER ^^^ 2 ^ j)) := by
  constructor
  · intro hi2
    exact flip_bit_bad_checksum op p i j hi2 hin
  · intro hi0
    subst hi0
    exact flip_bit_bad_header op p j

theorem claim_c5_checksum_sensitivity_witness :
    ((2 : Nat) ≤ 2 →
      (parse_frame (flip_bit (build_packet 0 [1, 2]) 2 0)).is_valid = false ∧
      ∃ r c, r ≠ c ∧
        (parse_frame (flip_bit (build_packet 0 [1, 2]) 2 0)).error_msg =
          "Bad Checksum: Rx " ++ hex2 r ++ " != Calc " ++ hex2 c) ∧
    ((2 : Nat) = 0 →
      (parse_frame (flip_bit (build_packet 0 [1, 2]) 2 0)).is_valid = false ∧
      (parse_frame (flip_bit (build_packet 0 [1, 2]) 2 0)).error_msg =
        "Bad Header 0x" ++ hex2 (HEADER ^^^ 2 ^ 0)) :=
  claim_c5_checksum_sensitivity 0 [1, 2] (by decide) (by decide) (by decide)
    2 0 (by decide) (by decide)

/-- Claim C6 counterexample: opcode `0x11`'s response `build_packet 17 [1]`
parses with `is_valid = true`, yet the scanner row carries the frame's
message "OK" — not an empty error message. -/
theorem claim_c6_counterexample :
    (parse_frame (build_packet 17 [1])).is_valid = true ∧
    (scan_row 17 (some (build_packet 17 [1]))).error_msg = "OK" ∧
    "OK" ≠ "" := by
  decide

/-- Claim C6 amended: for every response frame that parses with
`is_valid = true`, the scanner row carries the frame's error message, which
for valid frames is the string "OK" (not the empty string). -/
theorem claim_c6_valid_row_msg (op : Nat) (resp : List Nat)
    (hv : (parse_frame resp).is_valid = true) :
    (scan_row op (some resp)).error_msg = "OK" := by
  have hne : ¬ resp.length = 0 := by
    intro h0
    rw [List.eq_nil_of_length_eq_zero h0] at hv
    exact absurd hv (by decide)
  have hmsg := parse_frame_valid_msg resp hv
  simp [scan_row, hne, hmsg]

theorem claim_c6_valid_row_msg_witness :
    (parse_frame (build_packet 16 [1])).is_valid = true ∧
    (scan_row 16 (some (build_packet 16 [1]))).error_msg = "OK" :=
  ⟨by decide, claim_c6_valid_row_msg 16 (build_packet 16 [1]) (by decide)⟩

/-- Claim C7: parsing any strict prefix of a valid built frame never raises
(`parse_frame` is total) and reports the classification matching the prefix
length `k`: empty data for `k = 0`, frame-too-short for `k < 4`, truncated
(against the declared total `p.length + 4`) otherwise. -/
theorem claim_c7_truncation_totality (op : Nat) (p : List Nat)
    (_hop : op < 256) (_hbytes : ∀ b ∈ p, b < 256) (_hplen : p.length ≤ 254)
    (k : Nat) (hk : k < p.length + 4) :
    (parse_frame ((build_packet op p).take k)).is_valid = false ∧
    (parse_frame ((build_packet op p).take k)).error_msg =
      (if k = 0 then "Empty Data"
       else if k < 4 then "Frame too short (" ++ toString k ++ ")"
       else "Truncated: Exp " ++ toString (p.length + 4) ++
            " Got " ++ toString k) := by
  have hlenf : (build_packet op p).length = p.length + 4 :=
    length_build_packet op p
  have hlen_take : ((build_packet op p).take k).length = k := by
    rw [List.length_take, hlenf]
    omega
  by_cases hk0 : k = 0
  · subst hk0
    rw [List.take_zero, parse_frame_zero [] rfl]
    simp
  · by_cases hk4 : k < 4
    · rw [parse_frame_short _ (by omega) (by omega)]
      rw [hlen_take, if_neg hk0, if_pos hk4]
      exact ⟨rfl, rfl⟩
    · have hget1 : ((build_packet op p).take k).getD 1 0 = 1 + p.length := by
        rw [getD_take _ k 1 0 (by omega) (by omega)]
        rw [build_packet_eq_cons]
        rfl
      have ht : ((build_packet op p).take k).length <
          1 + 1 + ((build_packet op p).take k).getD 1 0 + 1 := by
        rw [hlen_take, hget1]
        omega
      rw [parse_frame_truncated _ (by omega) ht]
      rw [hget1, hlen_take, if_neg hk0, if_neg hk4]
      refine ⟨rfl, ?_⟩
      have : 1 + 1 + (1 + p.length) + 1 = p.length + 4 := by omega
      rw [this]

end ClaimsC

section ClaimsD

open DroneProtocol

theorem claim_c7_truncation_totality_witness :
    (parse_frame ((build_packet 16 [1, 2]).take 5)).is_valid = false ∧
    (parse_frame ((build_packet 16 [1, 2]).take 5)).error_msg =
      "Truncated: Exp 6 Got 5" := by
  have h := claim_c7_truncation_totality 16 [1, 2] (by decide) (by decide)
    (by decide) 5 (by decide)
  exact ⟨h.1, h.2.trans (by decide)⟩

/-- Claim C8: `decode_telemetry` is total (never raises); a payload whose
length differs from the fixed layout size `1 + 2 + 4 + 1 = 8` yields the
structured size-mismatch error carrying the payload's hex, and an
exactly-8-byte payload yields the four little-endian unpacked fields —
battery `u8`, voltage `u16`, the altitude `f32` (represented by its exact
32-bit pattern), and the error flags rendered as Python hex — with no
error. -/
theorem claim_c8_telemetry_size_gate (p : List Nat)
    (_hbytes : ∀ b ∈ p, b < 256) :
    (p.length ≠ 8 → decode_telemetry p = .sizeMismatch (bytesHex p)) ∧
    (p.length = 8 →
      decode_telemetry p =
        .ok (p.getD 0 0) (p.getD 1 0 + 256 * p.getD 2 0)
          (p.getD 3 0 + 256 * p.getD 4 0 + 65536 * p.getD 5 0 +
           16777216 * p.getD 6 0)
          (hexPy (p.getD 7 0))) := by
  constructor
  · intro h
    simp [decode_telemetry, h]
  · intro h
    simp [decode_telemetry, h]

theorem claim_c8_telemetry_size_gate_witness :
    decode_telemetry [85, 176, 54, 0, 0, 120, 65, 0] =
      .ok 85 14000 1098383360 "0x0" ∧
    decode_telemetry [1, 2, 3] = .sizeMismatch "010203" :=
  ⟨((claim_c8_telemetry_size_gate [85, 176, 54, 0, 0, 120, 65, 0]
      (by decide)).2 (by decide)).trans (by decide),
   ((claim_c8_telemetry_size_gate [1, 2, 3] (by decide)).1
      (by decide)).trans (by decide)⟩

/-- Claim C9: for every input of at least 4 bytes whose length byte (offset
1) is 0, `parse_frame` derives `payload_len = max(0, 0 - 1) = 0` over the
integers and returns an empty payload, while the opcode is still read from
fixed offset 2 of the input. -/
theorem claim_c9_zero_length_edge (data : List Nat) (h4 : 4 ≤ data.length)
    (hz : data.getD 1 0 = 0) :
    (parse_frame data).payload = [] ∧
    (parse_frame data).opcode = data.getD 2 0 := by
  have hge : 1 + 1 + data.getD 1 0 + 1 ≤ data.length := by omega
  have h := parse_frame_long_fields data h4 hge
  constructor
  · rw [h.2.1, hz]
    simp
  · rw [h.1, hz]
    exact getD_take data (1 + 1 + 0 + 1) 2 0 (by omega) (by omega)

theorem claim_c9_zero_length_edge_witness :
    (parse_frame [85, 0, 66, 153]).payload = [] ∧
    (parse_frame [85, 0, 66, 153]).opcode = ([85, 0, 66, 153] : List Nat).getD 2 0 :=
  claim_c9_zero_length_edge [85, 0, 66, 153] (by decide) (by decide)

/-- Claim C10 (implicit): `MockDrone.build_packet` produces byte-identical
output to `DroneProtocol.build_packet` for every opcode byte and payload of
at most 254 bytes (the range the one-byte length field admits), so every
frame the mock device emits parses as valid. -/
theorem claim_c10_codec_equivalence (op : Nat) (p : List Nat)
    (_hop : op < 256) (_hbytes : ∀ b ∈ p, b < 256) (_hlen : p.length ≤ 254) :
    MockDrone.build_packet op p = DroneProtocol.build_packet op p ∧
    (parse_frame (MockDrone.build_packet op p)).is_valid = true := by
  have he : MockDrone.build_packet op p = DroneProtocol.build_packet op p := rfl
  refine ⟨he, ?_⟩
  rw [he, parse_build_packet]

theorem claim_c10_codec_equivalence_witness :
    MockDrone.build_packet 17 [85, 176] = DroneProtocol.build_packet 17 [85, 176] ∧
    (parse_frame (MockDrone.build_packet 17 [85, 176])).is_valid = true :=
  claim_c10_codec_equivalence 17 [85, 176] (by decide) (by decide) (by decide)

end ClaimsD
